import Mathlib

/-!
Verification of the Ceph peer-messaging abstraction layer
(src/msg/Messenger.h): the dispatcher chain, the delivery protocol over it,
connection Policy values, and the start/shutdown lifecycle.

The header is embedded shallowly: the dispatcher list and the scalar fields
of the Messenger become a Lean structure, each member function becomes a
Lean function on that structure, and the delivery loops additionally return
the ordered trace of dispatchers they invoked, so that claim-based versus
broadcast fan-out is observable.  Types the header only references
(Message.h, Dispatcher.h, include/types.h, include/ceph_features.h) are not
part of the fragment and are modelled from the spec, as marked on each.
-/

/-- Modelled from the spec: the Identity of a daemon (entity_name_t, from
include/types.h which is outside the fragment): a type tag plus a numeric id. -/
structure entity_name_t where
  type : Nat
  num : Int

/-- Modelled from the spec: the network Address of a peer (entity_addr_t,
outside the fragment); opaque data. -/
structure entity_addr_t where
  nonce : Nat
  addr : Nat

/-- Modelled from the spec: an Instance, the addressable identity + address
pair (entity_inst_t, outside the fragment). -/
structure entity_inst_t where
  name : entity_name_t
  addr : entity_addr_t

/-- Modelled from the spec: a timestamp (utime_t, outside the fragment). -/
structure utime_t where
  sec : Nat
  nsec : Nat

/-- Modelled from the spec: a Message is an opaque payload plus metadata:
its source instance and a dispatch timestamp stamped at delivery time
(Message.h is outside the fragment). -/
structure Message where
  payload : Nat
  source_inst : entity_inst_t
  dispatch_stamp : utime_t

/-- Modelled from the spec: accessor for the source instance of a message. -/
def Message.get_source_inst (m : Message) : entity_inst_t :=
  m.source_inst

/-- Modelled from the spec: stamping a message with a dispatch timestamp. -/
def Message.set_dispatch_stamp (m : Message) (t : utime_t) : Message :=
  { m with dispatch_stamp := t }

/-- Modelled from the spec: an opaque handle to one logical peer session
(Connection, owned by the transport, outside the fragment). -/
structure Connection where
  id : Nat

/-- Modelled from the spec: an opaque credential blob issued by a dispatcher
(AuthAuthorizer, outside the fragment). -/
structure AuthAuthorizer where
  blob : Nat

/-- Modelled from the spec: an opaque byte-buffer list (bufferlist, outside
the fragment). -/
structure bufferlist where
  data : List Nat

/-- Modelled from the spec: the shared throttle resource optionally referenced
by a Policy (Throttle, outside the fragment); opaque. -/
structure Throttle where
  id : Nat

/-- Modelled from the spec: the process-wide CephContext handle (outside the
fragment); opaque, only threaded through. -/
structure CephContext where
  id : Nat

/-- Modelled from the spec: the Dispatcher capability (Dispatcher.h is outside
the fragment): six callbacks consumed by the delivery protocol.  C++
by-reference out-parameters are modelled as explicit value threading:
ms_get_authorizer receives the current value of the caller's authorizer slot
and returns the claim flag together with the (possibly updated) slot;
ms_verify_authorizer likewise threads the reply buffer and the isvalid flag.
The connect and remote-reset handlers return void. -/
structure Dispatcher where
  ms_dispatch : Message → Bool
  ms_handle_connect : Connection → Unit
  ms_handle_reset : Connection → Bool
  ms_handle_remote_reset : Connection → Unit
  ms_get_authorizer : Int → Option AuthAuthorizer → Bool → Bool × Option AuthAuthorizer
  ms_verify_authorizer : Connection → Int → Int → bufferlist → bufferlist → Bool → Bool × bufferlist × Bool

/-- Modelled from the spec: the baseline-default feature bitmask
CEPH_FEATURES_SUPPORTED_DEFAULT from include/ceph_features.h, which is
outside the fragment.  Its concrete numeric value is immaterial to every
property proved below (each proof treats it as an arbitrary fixed mask);
a fixed nonzero mask is used so that the baseline-inclusion properties are
not vacuous.  uint64_t masks are modelled as Nat: bitwise or of 64-bit
values cannot overflow, and no other arithmetic is performed on them. -/
def CEPH_FEATURES_SUPPORTED_DEFAULT : Nat := 0x7fff

/-- Embeds Messenger::Policy: negotiated per-connection-class behaviour. -/
structure Policy where
  lossy : Bool
  server : Bool
  throttler : Option Throttle
  features_supported : Nat
  features_required : Nat

/-- Embeds the zero-argument Policy constructor. -/
def Policy.default : Policy :=
  { lossy := false, server := false, throttler := none,
    features_supported := CEPH_FEATURES_SUPPORTED_DEFAULT,
    features_required := 0 }

/-- Embeds Policy(bool l, bool s, uint64_t sup, uint64_t req): the supported
mask is the caller's mask or-ed with the baseline default. -/
def Policy.make (l s : Bool) (sup req : Nat) : Policy :=
  { lossy := l, server := s, throttler := none,
    features_supported := sup ||| CEPH_FEATURES_SUPPORTED_DEFAULT,
    features_required := req }

/-- Embeds Policy::stateful_server. -/
def Policy.stateful_server (sup req : Nat) : Policy :=
  Policy.make false true sup req

/-- Embeds Policy::stateless_server. -/
def Policy.stateless_server (sup req : Nat) : Policy :=
  Policy.make true true sup req

/-- Embeds Policy::lossless_peer. -/
def Policy.lossless_peer (sup req : Nat) : Policy :=
  Policy.make false false sup req

/-- Embeds Policy::client. -/
def Policy.client (sup req : Nat) : Policy :=
  Policy.make false false sup req

/-- Modelled from the spec: the default send priority constant
CEPH_MSG_PRIO_DEFAULT (defined externally to the fragment); its value is
immaterial to the properties below. -/
def CEPH_MSG_PRIO_DEFAULT : Int := 127

/-- Embeds the observable state of a Messenger: the dispatcher chain and the
scalar fields.  ready_count instruments the virtual ready() hook (whose base
implementation is a no-op): it counts how many times the hook has fired, so
that the one-shot ready property is observable. -/
structure Messenger where
  dispatchers : List Dispatcher
  _my_name : entity_name_t
  default_send_priority : Int
  started : Bool
  cct : CephContext
  ready_count : Nat

/-- Embeds the Messenger(CephContext*, entity_name_t) constructor: empty
chain, default priority, not started, name recorded; the ready() hook has
never fired. -/
def Messenger.create (cct : CephContext) (w : entity_name_t) : Messenger :=
  { dispatchers := [], _my_name := w,
    default_send_priority := CEPH_MSG_PRIO_DEFAULT,
    started := false, cct := cct, ready_count := 0 }

/-- Models a call of the virtual ready() hook: observable only through the
instrumentation counter. -/
def Messenger.fireReady (msgr : Messenger) : Messenger :=
  { msgr with ready_count := msgr.ready_count + 1 }

/-- Embeds Messenger::add_dispatcher_head: remember whether the chain was
empty, push the dispatcher at the front, and fire ready() if it was. -/
def Messenger.add_dispatcher_head (msgr : Messenger) (d : Dispatcher) : Messenger :=
  let first := msgr.dispatchers.isEmpty
  let msgr' := { msgr with dispatchers := d :: msgr.dispatchers }
  if first then msgr'.fireReady else msgr'

/-- Embeds Messenger::add_dispatcher_tail: remember whether the chain was
empty, push the dispatcher at the back, and fire ready() if it was. -/
def Messenger.add_dispatcher_tail (msgr : Messenger) (d : Dispatcher) : Messenger :=
  let first := msgr.dispatchers.isEmpty
  let msgr' := { msgr with dispatchers := msgr.dispatchers ++ [d] }
  if first then msgr'.fireReady else msgr'

/-- Embeds Messenger::is_ready: true iff the chain is non-empty. -/
def Messenger.is_ready (msgr : Messenger) : Bool :=
  !msgr.dispatchers.isEmpty

/-- Embeds Messenger::set_default_send_priority: assert(!started) then store.
The tripped assertion (a programming-error fault, not a recoverable error)
is modelled as none; the successful call returns the updated messenger. -/
def Messenger.set_default_send_priority (msgr : Messenger) (p : Int) : Option Messenger :=
  if msgr.started then none
  else some { msgr with default_send_priority := p }

/-- Embeds Messenger::get_default_send_priority. -/
def Messenger.get_default_send_priority (msgr : Messenger) : Int :=
  msgr.default_send_priority

/-- Embeds the base Messenger::start: set started and return 0. -/
def Messenger.start (msgr : Messenger) : Messenger × Int :=
  ({ msgr with started := true }, 0)

/-- Embeds the base Messenger::shutdown: clear started and return 0. -/
def Messenger.shutdown (msgr : Messenger) : Messenger × Int :=
  ({ msgr with started := false }, 0)

/-- The diagnostic content assembled into the ostringstream on the fatal
unhandled-message path: the fixed text, the message streamed into it, and
the message's source instance. -/
structure Diagnostic where
  text : String
  msg : Message
  source : entity_inst_t

/-- How a delivery entry point ends: a normal return, or dout_emergency of a
diagnostic followed by assert(0) — the call never returns normally. -/
inductive DeliverOutcome where
  | returned : DeliverOutcome
  | aborted : Diagnostic → DeliverOutcome

/-- The fixed text of the fatal unhandled-message diagnostic. -/
def unhandledMessageText : String :=
  "ms_deliver_dispatch: fatal error: unhandled message"

/-- The loop of Messenger::ms_deliver_dispatch: walk the chain in order,
stopping at the first dispatcher whose ms_dispatch returns true.  Returns
the ordered trace of dispatchers that were invoked together with whether
some dispatcher claimed the message. -/
def dispatchLoop (disps : List Dispatcher) (m : Message) : List Dispatcher × Bool :=
  match disps with
  | [] => ([], false)
  | d :: rest =>
    if d.ms_dispatch m then ([d], true)
    else
      let r := dispatchLoop rest m
      (d :: r.1, r.2)

/-- Embeds Messenger::ms_deliver_dispatch: stamp the message with the current
time (ceph_clock_now(cct) is passed in as now), then walk the chain; if a
dispatcher claims, return normally; otherwise emit the unhandled-message
diagnostic and abort via assert(0).  The result is the stamped message, the
invocation trace, and the outcome. -/
def Messenger.ms_deliver_dispatch (msgr : Messenger) (now : utime_t) (m : Message) :
    Message × List Dispatcher × DeliverOutcome :=
  let m' := m.set_dispatch_stamp now
  let r := dispatchLoop msgr.dispatchers m'
  if r.2 then
    (m', r.1, DeliverOutcome.returned)
  else
    (m', r.1, DeliverOutcome.aborted
      { text := unhandledMessageText, msg := m', source := m'.get_source_inst })

/-- The loop of Messenger::ms_deliver_handle_connect: every dispatcher's
ms_handle_connect is invoked in chain order; the handlers return void, so
nothing can stop the walk.  Returns the invocation trace. -/
def connectLoop (disps : List Dispatcher) (con : Connection) : List Dispatcher :=
  match disps with
  | [] => []
  | d :: rest =>
    let _ := d.ms_handle_connect con
    d :: connectLoop rest con

/-- Embeds Messenger::ms_deliver_handle_connect. -/
def Messenger.ms_deliver_handle_connect (msgr : Messenger) (con : Connection) :
    List Dispatcher :=
  connectLoop msgr.dispatchers con

/-- The loop of Messenger::ms_deliver_handle_reset: walk the chain in order,
returning early at the first dispatcher whose ms_handle_reset returns true.
Returns the invocation trace and whether some dispatcher claimed. -/
def resetLoop (disps : List Dispatcher) (con : Connection) : List Dispatcher × Bool :=
  match disps with
  | [] => ([], false)
  | d :: rest =>
    if d.ms_handle_reset con then ([d], true)
    else
      let r := resetLoop rest con
      (d :: r.1, r.2)

/-- Embeds Messenger::ms_deliver_handle_reset: both the early return on a
claim and the fall-through at the end of the loop return normally — unlike
ms_deliver_dispatch there is no diagnostic and no abort path in the body. -/
def Messenger.ms_deliver_handle_reset (msgr : Messenger) (con : Connection) :
    List Dispatcher × DeliverOutcome :=
  let r := resetLoop msgr.dispatchers con
  (r.1, DeliverOutcome.returned)

/-- The loop of Messenger::ms_deliver_handle_remote_reset: every dispatcher's
ms_handle_remote_reset is invoked in chain order; the handlers return void.
Returns the invocation trace. -/
def remoteResetLoop (disps : List Dispatcher) (con : Connection) : List Dispatcher :=
  match disps with
  | [] => []
  | d :: rest =>
    let _ := d.ms_handle_remote_reset con
    d :: remoteResetLoop rest con

/-- Embeds Messenger::ms_deliver_handle_remote_reset. -/
def Messenger.ms_deliver_handle_remote_reset (msgr : Messenger) (con : Connection) :
    List Dispatcher :=
  remoteResetLoop msgr.dispatchers con

/-- The loop of Messenger::ms_deliver_get_authorizer: the local slot a
(initially null) is passed by address to each dispatcher in order; the first
dispatcher whose hook returns true ends the walk and the slot's current value
is returned; if the loop ends, NULL is returned. -/
def getAuthorizerLoop (disps : List Dispatcher) (peer_type : Int) (force_new : Bool)
    (a : Option AuthAuthorizer) : Option AuthAuthorizer :=
  match disps with
  | [] => none
  | d :: rest =>
    let r := d.ms_get_authorizer peer_type a force_new
    if r.1 then r.2 else getAuthorizerLoop rest peer_type force_new r.2

/-- Embeds Messenger::ms_deliver_get_authorizer: run the loop with the slot
initialized to null. -/
def Messenger.ms_deliver_get_authorizer (msgr : Messenger) (peer_type : Int)
    (force_new : Bool) : Option AuthAuthorizer :=
  getAuthorizerLoop msgr.dispatchers peer_type force_new none

/-- The loop of Messenger::ms_deliver_verify_authorizer: walk the chain in
order, threading the by-reference reply buffer and isvalid flag, and stop at
the first dispatcher whose hook returns true; false when none does. -/
def verifyLoop (disps : List Dispatcher) (con : Connection) (peer_type protocol : Int)
    (authorizer : bufferlist) (reply : bufferlist) (isvalid : Bool) :
    Bool × bufferlist × Bool :=
  match disps with
  | [] => (false, reply, isvalid)
  | d :: rest =>
    let r := d.ms_verify_authorizer con peer_type protocol authorizer reply isvalid
    if r.1 then (true, r.2.1, r.2.2)
    else verifyLoop rest con peer_type protocol authorizer r.2.1 r.2.2

/-- Embeds Messenger::ms_deliver_verify_authorizer. -/
def Messenger.ms_deliver_verify_authorizer (msgr : Messenger) (con : Connection)
    (peer_type protocol : Int) (authorizer reply : bufferlist) (isvalid : Bool) :
    Bool × bufferlist × Bool :=
  verifyLoop msgr.dispatchers con peer_type protocol authorizer reply isvalid

/-- Builds a dispatcher from a message predicate and a reset predicate; the
void handlers are trivial and the authorizer hooks decline, leaving their
threaded slots unchanged. -/
def mkDispatcher (f : Message → Bool) (r : Connection → Bool) : Dispatcher :=
  { ms_dispatch := f, ms_handle_connect := fun _ => (),
    ms_handle_reset := r, ms_handle_remote_reset := fun _ => (),
    ms_get_authorizer := fun _ a _ => (false, a),
    ms_verify_authorizer := fun _ _ _ _ reply isvalid => (false, reply, isvalid) }

/-- A concrete instance used in witnesses. -/
def inst0 : entity_inst_t :=
  { name := { type := 4, num := 99 }, addr := { nonce := 1, addr := 2 } }

/-- A concrete timestamp used in witnesses. -/
def time0 : utime_t :=
  { sec := 10, nsec := 20 }

/-- A concrete message used in witnesses. -/
def msg0 : Message :=
  { payload := 5, source_inst := inst0, dispatch_stamp := { sec := 0, nsec := 0 } }

/-- A concrete connection used in witnesses. -/
def con0 : Connection :=
  { id := 3 }

/-- A freshly constructed messenger used in witnesses. -/
def m0 : Messenger :=
  Messenger.create { id := 0 } { type := 4, num := 99 }

/-- A dispatcher that claims nothing. -/
def dA : Dispatcher := mkDispatcher (fun _ => false) (fun _ => false)

/-- A dispatcher that claims every message and every local reset. -/
def dB : Dispatcher := mkDispatcher (fun _ => true) (fun _ => true)

/-- Another dispatcher that claims nothing. -/
def dC : Dispatcher := mkDispatcher (fun _ => false) (fun _ => false)

/-- A messenger holding the chain A, B, C, used in witnesses. -/
def msgrABC : Messenger :=
  { m0 with dispatchers := [dA, dB, dC] }

/-- If no dispatcher claims the message, the dispatch loop invokes the whole
chain in order and reports no claim. -/
theorem dispatchLoop_none_claims (l : List Dispatcher) (m : Message)
    (h : ∀ d ∈ l, d.ms_dispatch m = false) :
    dispatchLoop l m = (l, false) := by
  induction l with
  | nil => rfl
  | cons d rest ih =>
    have hd : d.ms_dispatch m = false := h d (List.mem_cons_self d rest)
    have hrest : ∀ x ∈ rest, x.ms_dispatch m = false :=
      fun x hx => h x (List.mem_cons_of_mem d hx)
    simp [dispatchLoop, hd, ih hrest]

/-- The dispatch loop stops at the first claiming dispatcher: everything
before it is invoked, it is invoked, and nothing after it is reached. -/
theorem dispatchLoop_first_claimer (pre post : List Dispatcher) (b : Dispatcher)
    (m : Message)
    (hpre : ∀ d ∈ pre, d.ms_dispatch m = false)
    (hb : b.ms_dispatch m = true) :
    dispatchLoop (pre ++ b :: post) m = (pre ++ [b], true) := by
  induction pre with
  | nil => simp [dispatchLoop, hb]
  | cons d rest ih =>
    have hd : d.ms_dispatch m = false := hpre d (List.mem_cons_self d rest)
    have hrest : ∀ x ∈ rest, x.ms_dispatch m = false :=
      fun x hx => hpre x (List.mem_cons_of_mem d hx)
    simp [dispatchLoop, hd, ih hrest]

/-- C1: for every dispatcher chain (the empty chain included) and every
inbound message, if no dispatcher claims the (time-stamped) message,
ms_deliver_dispatch invokes the entire chain and then aborts after emitting
the diagnostic carrying the unhandled-message text, the message, and the
message's source instance; it does not return normally. -/
theorem unclaimed_message_is_fatal (msgr : Messenger) (now : utime_t) (m : Message)
    (h : ∀ d ∈ msgr.dispatchers, d.ms_dispatch (m.set_dispatch_stamp now) = false) :
    msgr.ms_deliver_dispatch now m =
      (m.set_dispatch_stamp now, msgr.dispatchers,
        DeliverOutcome.aborted
          { text := unhandledMessageText, msg := m.set_dispatch_stamp now,
            source := (m.set_dispatch_stamp now).get_source_inst })
    ∧ (msgr.ms_deliver_dispatch now m).2.2 ≠ DeliverOutcome.returned := by
  have hl := dispatchLoop_none_claims msgr.dispatchers (m.set_dispatch_stamp now) h
  refine ⟨?_, ?_⟩
  · simp [Messenger.ms_deliver_dispatch, hl]
  · simp [Messenger.ms_deliver_dispatch, hl]

/-- C1 witness: on the empty chain of a freshly constructed messenger, a
concrete message triggers the fatal unhandled-message outcome. -/
theorem unclaimed_message_is_fatal_witness :
    m0.ms_deliver_dispatch time0 msg0 =
      (msg0.set_dispatch_stamp time0, [],
        DeliverOutcome.aborted
          { text := unhandledMessageText, msg := msg0.set_dispatch_stamp time0,
            source := (msg0.set_dispatch_stamp time0).get_source_inst })
    ∧ (m0.ms_deliver_dispatch time0 msg0).2.2 ≠ DeliverOutcome.returned :=
  unclaimed_message_is_fatal m0 time0 msg0 (by simp [m0, Messenger.create])

/-- C2: ms_deliver_dispatch stamps the message with the current time and then
iterates the chain in order, stopping at the first claimer: writing the chain
as pre ++ b :: post where nothing in pre claims the stamped message and b
does, exactly the dispatchers of pre followed by b are invoked (each once, in
chain order), nothing after b is invoked, and the call returns normally. -/
theorem dispatch_stops_at_first_claimer (msgr : Messenger) (now : utime_t)
    (m : Message) (pre post : List Dispatcher) (b : Dispatcher)
    (hchain : msgr.dispatchers = pre ++ b :: post)
    (hpre : ∀ d ∈ pre, d.ms_dispatch (m.set_dispatch_stamp now) = false)
    (hb : b.ms_dispatch (m.set_dispatch_stamp now) = true) :
    msgr.ms_deliver_dispatch now m =
      (m.set_dispatch_stamp now, pre ++ [b], DeliverOutcome.returned) := by
  have hl := dispatchLoop_first_claimer pre post b (m.set_dispatch_stamp now) hpre hb
  simp [Messenger.ms_deliver_dispatch, hchain, hl]

/-- C2 witness: in the concrete chain A, B, C where only B claims, A and B
are invoked in that order, C is never invoked, and the call returns. -/
theorem dispatch_stops_at_first_claimer_witness :
    msgrABC.ms_deliver_dispatch time0 msg0 =
      (msg0.set_dispatch_stamp time0, [dA, dB], DeliverOutcome.returned) :=
  dispatch_stops_at_first_claimer msgrABC time0 msg0 [dA] [dC] dB rfl
    (by
      intro d hd
      simp only [List.mem_singleton] at hd
      simp [hd, dA, mkDispatcher])
    rfl

/-- The connect broadcast loop invokes exactly the whole chain in order. -/
theorem connectLoop_all (l : List Dispatcher) (con : Connection) :
    connectLoop l con = l := by
  induction l with
  | nil => rfl
  | cons d rest ih => simp [connectLoop, ih]

/-- The remote-reset broadcast loop invokes exactly the whole chain in order. -/
theorem remoteResetLoop_all (l : List Dispatcher) (con : Connection) :
    remoteResetLoop l con = l := by
  induction l with
  | nil => rfl
  | cons d rest ih => simp [remoteResetLoop, ih]

/-- C3: the connection-established and remote-reset events invoke every
registered dispatcher exactly once, in chain order — the invocation trace is
the whole chain; the handlers return void, so no return value can stop the
walk, and no dispatcher is skipped. -/
theorem broadcast_events_invoke_all (msgr : Messenger) (con : Connection) :
    msgr.ms_deliver_handle_connect con = msgr.dispatchers
    ∧ msgr.ms_deliver_handle_remote_reset con = msgr.dispatchers :=
  ⟨connectLoop_all msgr.dispatchers con, remoteResetLoop_all msgr.dispatchers con⟩

/-- A single registration step: insertion at the head or at the tail. -/
inductive AddOp where
  | head : Dispatcher → AddOp
  | tail : Dispatcher → AddOp

/-- Applies one registration step to a messenger. -/
def applyAdd (msgr : Messenger) (op : AddOp) : Messenger :=
  match op with
  | AddOp.head d => msgr.add_dispatcher_head d
  | AddOp.tail d => msgr.add_dispatcher_tail d

/-- Applies a sequence of registration steps, in order. -/
def applyAdds (msgr : Messenger) (ops : List AddOp) : Messenger :=
  match ops with
  | [] => msgr
  | op :: rest => applyAdds (applyAdd msgr op) rest

/-- A non-empty dispatcher list is not isEmpty. -/
theorem dispatchers_isEmpty_false (l : List Dispatcher) (h : l ≠ []) :
    l.isEmpty = false := by
  cases l with
  | nil => exact absurd rfl h
  | cons a t => rfl

/-- One registration step on a messenger whose chain is already non-empty
does not fire ready() and keeps the chain non-empty. -/
theorem applyAdd_stable (msgr : Messenger) (op : AddOp)
    (h : msgr.dispatchers ≠ []) :
    (applyAdd msgr op).ready_count = msgr.ready_count
    ∧ (applyAdd msgr op).dispatchers ≠ [] := by
  have he := dispatchers_isEmpty_false msgr.dispatchers h
  cases op with
  | head d =>
    refine ⟨?_, ?_⟩ <;>
      simp [applyAdd, Messenger.add_dispatcher_head, Messenger.fireReady, he]
  | tail d =>
    refine ⟨?_, ?_⟩ <;>
      simp [applyAdd, Messenger.add_dispatcher_tail, Messenger.fireReady, he]

/-- A whole sequence of registration steps on a messenger whose chain is
already non-empty never fires ready() again and keeps the chain non-empty. -/
theorem applyAdds_stable (ops : List AddOp) (msgr : Messenger)
    (h : msgr.dispatchers ≠ []) :
    (applyAdds msgr ops).ready_count = msgr.ready_count
    ∧ (applyAdds msgr ops).dispatchers ≠ [] := by
  induction ops generalizing msgr with
  | nil => exact ⟨rfl, h⟩
  | cons op rest ih =>
    obtain ⟨h1, h2⟩ := applyAdd_stable msgr op h
    obtain ⟨ha, hb⟩ := ih (applyAdd msgr op) h2
    exact ⟨ha.trans h1, hb⟩

/-- is_ready answers true exactly when the chain is non-empty. -/
theorem messenger_is_ready_iff (msgr : Messenger) :
    msgr.is_ready = true ↔ msgr.dispatchers ≠ [] := by
  unfold Messenger.is_ready
  cases h : msgr.dispatchers <;> simp [h]

/-- C4: starting from a newly constructed messenger, across any sequence of
add_dispatcher_head / add_dispatcher_tail calls the ready() hook fires
exactly once over the whole lifetime — namely min(number of insertions, 1)
times, so it fires precisely on the call that makes the empty chain
non-empty and on no later call (and since this holds for every sequence, it
holds for every prefix of a longer sequence as well); moreover is_ready is
true exactly when the chain is non-empty, which after these insertions is
exactly when at least one insertion happened. -/
theorem ready_fires_once (cct : CephContext) (w : entity_name_t) (ops : List AddOp) :
    (applyAdds (Messenger.create cct w) ops).ready_count = min ops.length 1
    ∧ ((applyAdds (Messenger.create cct w) ops).is_ready = true ↔
        (applyAdds (Messenger.create cct w) ops).dispatchers ≠ [])
    ∧ ((applyAdds (Messenger.create cct w) ops).dispatchers ≠ [] ↔ ops ≠ []) := by
  cases ops with
  | nil =>
    refine ⟨rfl, messenger_is_ready_iff _, ?_⟩
    simp [applyAdds, Messenger.create]
  | cons op rest =>
    have hcount : (applyAdd (Messenger.create cct w) op).ready_count = 1 := by
      cases op <;>
        simp [applyAdd, Messenger.add_dispatcher_head, Messenger.add_dispatcher_tail,
          Messenger.fireReady, Messenger.create]
    have hne : (applyAdd (Messenger.create cct w) op).dispatchers ≠ [] := by
      cases op <;>
        simp [applyAdd, Messenger.add_dispatcher_head, Messenger.add_dispatcher_tail,
          Messenger.fireReady, Messenger.create]
    obtain ⟨ha, hb⟩ := applyAdds_stable rest (applyAdd (Messenger.create cct w) op) hne
    have heq : applyAdds (Messenger.create cct w) (op :: rest)
        = applyAdds (applyAdd (Messenger.create cct w) op) rest := rfl
    refine ⟨?_, messenger_is_ready_iff _, ?_⟩
    · rw [heq, ha, hcount, List.length_cons]
      exact (Nat.min_eq_right (Nat.succ_le_succ (Nat.zero_le _))).symm
    · constructor
      · intro _
        exact List.cons_ne_nil op rest
      · intro _
        rw [heq]
        exact hb

/-- The dispatch loop's invocation trace is always an order-preserving
initial segment of the chain. -/
theorem dispatchLoop_trace_take (l : List Dispatcher) (m : Message) :
    ∃ k, (dispatchLoop l m).1 = l.take k := by
  induction l with
  | nil => exact ⟨0, rfl⟩
  | cons d rest ih =>
    by_cases h : d.ms_dispatch m = true
    · exact ⟨1, by simp [dispatchLoop, h]⟩
    · obtain ⟨k, hk⟩ := ih
      refine ⟨k + 1, ?_⟩
      simp [dispatchLoop, h, hk]

/-- The invocation trace of ms_deliver_dispatch is the trace of its loop on
the stamped message, whether or not any dispatcher claims. -/
theorem ms_deliver_dispatch_trace (msgr : Messenger) (now : utime_t) (m : Message) :
    (msgr.ms_deliver_dispatch now m).2.1 =
      (dispatchLoop msgr.dispatchers (m.set_dispatch_stamp now)).1 := by
  unfold Messenger.ms_deliver_dispatch
  by_cases h : (dispatchLoop msgr.dispatchers (m.set_dispatch_stamp now)).2 = true <;>
    simp [h]

/-- C5: head insertion places a dispatcher at the front: inserting D, E, F
via add_dispatcher_head into the empty chain of a fresh messenger yields the
chain F, E, D, and every subsequent delivery iterates in that order — the
dispatchers invoked by any ms_deliver_dispatch call form an initial segment
of F, E, D. -/
theorem add_head_builds_reverse_order (cct : CephContext) (w : entity_name_t)
    (D E F : Dispatcher) :
    ((((Messenger.create cct w).add_dispatcher_head D).add_dispatcher_head
        E).add_dispatcher_head F).dispatchers = [F, E, D]
    ∧ ∀ (now : utime_t) (m : Message), ∃ k,
        (((((Messenger.create cct w).add_dispatcher_head D).add_dispatcher_head
            E).add_dispatcher_head F).ms_deliver_dispatch now m).2.1
          = List.take k [F, E, D] := by
  refine ⟨rfl, ?_⟩
  intro now m
  obtain ⟨k, hk⟩ := dispatchLoop_trace_take [F, E, D] (m.set_dispatch_stamp now)
  exact ⟨k, by rw [ms_deliver_dispatch_trace]; exact hk⟩

/-- Or-ing any mask over a baseline keeps every baseline bit set. -/
theorem supported_absorbs_baseline (S B : Nat) : (S ||| B) &&& B = B := by
  apply Nat.eq_of_testBit_eq
  intro i
  cases hS : S.testBit i <;> cases hB : B.testBit i <;>
    simp [Nat.testBit_and, Nat.testBit_or, hS, hB]

/-- C6: the four Policy constructors produce the stated lossy/server pairs;
in every case features_supported is the caller's mask or-ed with the
baseline-default mask (hence contains every baseline bit, even for a zero
caller mask) and features_required is stored unchanged. -/
theorem policy_constructors_spec (S R : Nat) :
    (Policy.stateful_server S R).lossy = false
    ∧ (Policy.stateful_server S R).server = true
    ∧ (Policy.stateless_server S R).lossy = true
    ∧ (Policy.stateless_server S R).server = true
    ∧ (Policy.lossless_peer S R).lossy = false
    ∧ (Policy.lossless_peer S R).server = false
    ∧ (Policy.client S R).lossy = false
    ∧ (Policy.client S R).server = false
    ∧ (Policy.stateful_server S R).features_supported
        = S ||| CEPH_FEATURES_SUPPORTED_DEFAULT
    ∧ (Policy.stateless_server S R).features_supported
        = S ||| CEPH_FEATURES_SUPPORTED_DEFAULT
    ∧ (Policy.lossless_peer S R).features_supported
        = S ||| CEPH_FEATURES_SUPPORTED_DEFAULT
    ∧ (Policy.client S R).features_supported
        = S ||| CEPH_FEATURES_SUPPORTED_DEFAULT
    ∧ (Policy.stateful_server S R).features_required = R
    ∧ (Policy.stateless_server S R).features_required = R
    ∧ (Policy.lossless_peer S R).features_required = R
    ∧ (Policy.client S R).features_required = R
    ∧ (Policy.stateful_server S R).features_supported &&&
        CEPH_FEATURES_SUPPORTED_DEFAULT = CEPH_FEATURES_SUPPORTED_DEFAULT
    ∧ (Policy.stateless_server S R).features_supported &&&
        CEPH_FEATURES_SUPPORTED_DEFAULT = CEPH_FEATURES_SUPPORTED_DEFAULT
    ∧ (Policy.lossless_peer S R).features_supported &&&
        CEPH_FEATURES_SUPPORTED_DEFAULT = CEPH_FEATURES_SUPPORTED_DEFAULT
    ∧ (Policy.client S R).features_supported &&&
        CEPH_FEATURES_SUPPORTED_DEFAULT = CEPH_FEATURES_SUPPORTED_DEFAULT := by
  refine ⟨rfl, rfl, rfl, rfl, rfl, rfl, rfl, rfl, rfl, rfl, rfl, rfl, rfl, rfl,
    rfl, rfl, ?_, ?_, ?_, ?_⟩ <;>
    exact supported_absorbs_baseline S CEPH_FEATURES_SUPPORTED_DEFAULT

/-- C7: calling set_default_send_priority after start() (started is true)
trips the assertion — a programming-error fault, modelled as none, never a
normal result; before start() (started is false) the call succeeds and
stores p as the default send priority. -/
theorem send_priority_requires_not_started (msgr : Messenger) (p : Int) :
    ((msgr.start).1.set_default_send_priority p = none)
    ∧ (msgr.started = true → msgr.set_default_send_priority p = none)
    ∧ (msgr.started = false →
        msgr.set_default_send_priority p
          = some { msgr with default_send_priority := p })
    ∧ (Messenger.get_default_send_priority
        { msgr with default_send_priority := p } = p) := by
  refine ⟨?_, ?_, ?_, rfl⟩
  · simp [Messenger.start, Messenger.set_default_send_priority]
  · intro h
    simp [Messenger.set_default_send_priority, h]
  · intro h
    simp [Messenger.set_default_send_priority, h]

/-- C7 witness: on a freshly constructed messenger the setter succeeds and
stores 42; once start() has run, the same call trips the assertion. -/
theorem send_priority_requires_not_started_witness :
    ((m0.start).1.set_default_send_priority 42 = none)
    ∧ m0.set_default_send_priority 42
        = some { m0 with default_send_priority := 42 } :=
  ⟨(send_priority_requires_not_started m0 42).1,
    (send_priority_requires_not_started m0 42).2.2.1 rfl⟩

/-- Claim C8's reading of authorizer issuance, following the spec's words:
the walk stops at the first dispatcher producing a non-null authorizer and
returns that authorizer; null when no dispatcher produces one.  Each
dispatcher's hook is consulted on an empty slot.  To be compared with
ms_deliver_get_authorizer, which instead stops at the first hook returning
true, whatever the slot holds. -/
def specFirstNonNullAuthorizer (disps : List Dispatcher) (peer_type : Int)
    (force_new : Bool) : Option AuthAuthorizer :=
  match disps with
  | [] => none
  | d :: rest =>
    match (d.ms_get_authorizer peer_type none force_new).2 with
    | some a => some a
    | none => specFirstNonNullAuthorizer rest peer_type force_new

/-- A dispatcher whose authorizer hook claims without filling the slot. -/
def dClaimNull : Dispatcher :=
  { mkDispatcher (fun _ => false) (fun _ => false) with
    ms_get_authorizer := fun _ a _ => (true, a) }

/-- A dispatcher whose authorizer hook claims and fills the slot. -/
def dProduceLate : Dispatcher :=
  { mkDispatcher (fun _ => false) (fun _ => false) with
    ms_get_authorizer := fun _ _ _ => (true, some { blob := 7 }) }

/-- The messenger of the C8 counterexample: dClaimNull ahead of dProduceLate. -/
def msgrAuthCE : Messenger :=
  { m0 with dispatchers := [dClaimNull, dProduceLate] }

/-- C8 counterexample: in the chain dClaimNull, dProduceLate the only
dispatcher producing a non-null authorizer is the second one, so under the
claim the operation would return that authorizer; the code instead stops at
dClaimNull, whose hook returns true with the slot still empty, and returns
null — the two notions disagree on this input. -/
theorem get_authorizer_nonnull_counterexample :
    specFirstNonNullAuthorizer msgrAuthCE.dispatchers 0 false = some { blob := 7 }
    ∧ msgrAuthCE.ms_deliver_get_authorizer 0 false = none
    ∧ msgrAuthCE.ms_deliver_get_authorizer 0 false
        ≠ specFirstNonNullAuthorizer msgrAuthCE.dispatchers 0 false := by
  have h1 : msgrAuthCE.ms_deliver_get_authorizer 0 false
      = (none : Option AuthAuthorizer) := rfl
  have h2 : specFirstNonNullAuthorizer msgrAuthCE.dispatchers 0 false
      = some { blob := 7 } := rfl
  refine ⟨h2, h1, ?_⟩
  rw [h1, h2]
  exact fun h => Option.noConfusion h

/-- No dispatcher of the list claims when the authorizer slot is threaded
through them starting from the given value. -/
def noClaimOn (disps : List Dispatcher) (peer_type : Int) (force_new : Bool)
    (a : Option AuthAuthorizer) : Bool :=
  match disps with
  | [] => true
  | d :: rest =>
    !(d.ms_get_authorizer peer_type a force_new).1
      && noClaimOn rest peer_type force_new (d.ms_get_authorizer peer_type a force_new).2

/-- The value of the authorizer slot after threading it through every hook of
the list, starting from the given value, with no early stop. -/
def authorizerThread (disps : List Dispatcher) (peer_type : Int) (force_new : Bool)
    (a : Option AuthAuthorizer) : Option AuthAuthorizer :=
  match disps with
  | [] => a
  | d :: rest =>
    authorizerThread rest peer_type force_new (d.ms_get_authorizer peer_type a force_new).2

/-- If no dispatcher claims, the authorizer loop reaches the end of the chain
and yields null, whatever the hooks left in the slot. -/
theorem getAuthorizerLoop_no_claim (l : List Dispatcher) (pt : Int) (fn : Bool)
    (a : Option AuthAuthorizer) (h : noClaimOn l pt fn a = true) :
    getAuthorizerLoop l pt fn a = none := by
  induction l generalizing a with
  | nil => rfl
  | cons d rest ih =>
    simp only [noClaimOn, Bool.and_eq_true, Bool.not_eq_true'] at h
    obtain ⟨h1, h2⟩ := h
    simp [getAuthorizerLoop, h1]
    exact ih _ h2

/-- The authorizer loop stops at the first dispatcher whose hook returns
true, and yields the threaded slot value at that point. -/
theorem getAuthorizerLoop_first_claim (pre post : List Dispatcher) (b : Dispatcher)
    (pt : Int) (fn : Bool) (a : Option AuthAuthorizer)
    (hpre : noClaimOn pre pt fn a = true)
    (hb : (b.ms_get_authorizer pt (authorizerThread pre pt fn a) fn).1 = true) :
    getAuthorizerLoop (pre ++ b :: post) pt fn a
      = (b.ms_get_authorizer pt (authorizerThread pre pt fn a) fn).2 := by
  induction pre generalizing a with
  | nil =>
    simp only [authorizerThread] at hb
    simp [getAuthorizerLoop, authorizerThread, hb]
  | cons d rest ih =>
    simp only [noClaimOn, Bool.and_eq_true, Bool.not_eq_true'] at hpre
    obtain ⟨h1, h2⟩ := hpre
    simp only [authorizerThread] at hb
    simp [getAuthorizerLoop, authorizerThread, h1]
    exact ih _ h2 hb

/-- C8 amended: ms_deliver_get_authorizer iterates the chain in order,
threading the single authorizer slot (initially null) through the hooks, and
stops at the first dispatcher whose ms_get_authorizer returns true, returning
the slot's value at that point (which may still be null); if no hook returns
true, the operation returns null, whatever was left in the slot, and the
caller must treat that as an authentication failure. -/
theorem get_authorizer_stops_at_first_true (msgr : Messenger) (peer_type : Int)
    (force_new : Bool) :
    (noClaimOn msgr.dispatchers peer_type force_new none = true →
        msgr.ms_deliver_get_authorizer peer_type force_new = none)
    ∧ ∀ pre b post, msgr.dispatchers = pre ++ b :: post →
        noClaimOn pre peer_type force_new none = true →
        (b.ms_get_authorizer peer_type
            (authorizerThread pre peer_type force_new none) force_new).1 = true →
        msgr.ms_deliver_get_authorizer peer_type force_new
          = (b.ms_get_authorizer peer_type
              (authorizerThread pre peer_type force_new none) force_new).2 := by
  constructor
  · intro h
    exact getAuthorizerLoop_no_claim _ _ _ _ h
  · intro pre b post hchain hpre hb
    unfold Messenger.ms_deliver_get_authorizer
    rw [hchain]
    exact getAuthorizerLoop_first_claim pre post b _ _ _ hpre hb

/-- A dispatcher that fills the slot without claiming. -/
def dSlotSetter : Dispatcher :=
  { mkDispatcher (fun _ => false) (fun _ => false) with
    ms_get_authorizer := fun _ _ _ => (false, some { blob := 3 }) }

/-- A dispatcher that claims, keeping whatever the slot already holds. -/
def dClaimKeep : Dispatcher :=
  { mkDispatcher (fun _ => false) (fun _ => false) with
    ms_get_authorizer := fun _ a _ => (true, a) }

/-- The messenger of the C8 amended-claim witness. -/
def msgrAuthW : Messenger :=
  { m0 with dispatchers := [dSlotSetter, dClaimKeep] }

/-- C8 amended witness: a non-claiming hook fills the slot, the next hook
claims, and the operation returns the threaded slot value. -/
theorem get_authorizer_stops_at_first_true_witness :
    msgrAuthW.ms_deliver_get_authorizer 0 false = some { blob := 3 } :=
  (get_authorizer_stops_at_first_true msgrAuthW 0 false).2
    [dSlotSetter] dClaimKeep [] rfl rfl rfl

/-- If no dispatcher claims the local reset, the reset loop invokes the whole
chain in order and reports no claim. -/
theorem resetLoop_none_claims (l : List Dispatcher) (con : Connection)
    (h : ∀ d ∈ l, d.ms_handle_reset con = false) :
    resetLoop l con = (l, false) := by
  induction l with
  | nil => rfl
  | cons d rest ih =>
    have hd := h d (List.mem_cons_self d rest)
    have hrest : ∀ x ∈ rest, x.ms_handle_reset con = false :=
      fun x hx => h x (List.mem_cons_of_mem d hx)
    simp [resetLoop, hd, ih hrest]

/-- C9: if no dispatcher claims a local-reset event, ms_deliver_handle_reset
invokes every dispatcher in order and then returns normally — the outcome is
a plain return, never an abort with a diagnostic, unlike the unhandled
message path of ms_deliver_dispatch. -/
theorem unclaimed_reset_returns_normally (msgr : Messenger) (con : Connection)
    (h : ∀ d ∈ msgr.dispatchers, d.ms_handle_reset con = false) :
    msgr.ms_deliver_handle_reset con = (msgr.dispatchers, DeliverOutcome.returned)
    ∧ ∀ diag, (msgr.ms_deliver_handle_reset con).2 ≠ DeliverOutcome.aborted diag := by
  have hl := resetLoop_none_claims msgr.dispatchers con h
  refine ⟨?_, ?_⟩
  · simp [Messenger.ms_deliver_handle_reset, hl]
  · intro diag
    simp [Messenger.ms_deliver_handle_reset, hl]

/-- The two-dispatcher chain A, C in which nothing claims a reset. -/
def msgrAC : Messenger :=
  { m0 with dispatchers := [dA, dC] }

/-- C9 witness: on the concrete chain A, C where neither claims the reset,
both are invoked and the call returns normally. -/
theorem unclaimed_reset_returns_normally_witness :
    msgrAC.ms_deliver_handle_reset con0 = ([dA, dC], DeliverOutcome.returned) :=
  (unclaimed_reset_returns_normally msgrAC con0 (by
      intro d hd
      have hd' : d = dA ∨ d = dC := by
        simpa [msgrAC] using hd
      rcases hd' with h | h <;> subst h <;> rfl)).1

/-- Modelled from the spec: a concrete transport supplies the pure-virtual
addressed send operation; its observable behaviour is a function from the
transport's private state, the message and the destination instance to the
new state and the int result code. -/
structure TransportImpl (σ : Type) where
  send_message : σ → Message → entity_inst_t → σ × Int

/-- Embeds the base-class default of Messenger::lazy_send_message(Message*,
const entity_inst_t&): the body is exactly return send_message(m, dest). -/
def TransportImpl.lazy_send_message {σ : Type} (t : TransportImpl σ) (s : σ)
    (m : Message) (dest : entity_inst_t) : σ × Int :=
  t.send_message s m dest

/-- C10: the base-class lazy_send_message by peer instance is observationally
equal to the immediate send_message by peer instance: for every transport,
state, message and destination it forwards the call and returns both the
result and the state effect unchanged. -/
theorem lazy_send_message_forwards (σ : Type) (t : TransportImpl σ) (s : σ)
    (m : Message) (dest : entity_inst_t) :
    t.lazy_send_message s m dest = t.send_message s m dest := rfl

/-- C3 witness: on the concrete chain A, B, C both broadcast events invoke
exactly A, B, C in order. -/
theorem broadcast_events_invoke_all_witness :
    msgrABC.ms_deliver_handle_connect con0 = [dA, dB, dC]
    ∧ msgrABC.ms_deliver_handle_remote_reset con0 = [dA, dB, dC] :=
  broadcast_events_invoke_all msgrABC con0

/-- C4 witness: after two concrete insertions into a fresh messenger the
ready() hook has fired exactly once and the messenger reports ready. -/
theorem ready_fires_once_witness :
    (applyAdds (Messenger.create { id := 0 } { type := 4, num := 99 })
        [AddOp.head dA, AddOp.tail dB]).ready_count = 1
    ∧ ((applyAdds (Messenger.create { id := 0 } { type := 4, num := 99 })
        [AddOp.head dA, AddOp.tail dB]).dispatchers
          ≠ [] ↔ ([AddOp.head dA, AddOp.tail dB] : List AddOp) ≠ []) :=
  ⟨(ready_fires_once { id := 0 } { type := 4, num := 99 }
      [AddOp.head dA, AddOp.tail dB]).1,
    (ready_fires_once { id := 0 } { type := 4, num := 99 }
      [AddOp.head dA, AddOp.tail dB]).2.2⟩

/-- C5 witness: head-inserting the concrete dispatchers A, B, C yields the
chain C, B, A. -/
theorem add_head_builds_reverse_order_witness :
    ((((Messenger.create { id := 0 } { type := 4, num := 99 }).add_dispatcher_head
        dA).add_dispatcher_head dB).add_dispatcher_head dC).dispatchers
      = [dC, dB, dA] :=
  (add_head_builds_reverse_order { id := 0 } { type := 4, num := 99 } dA dB dC).1

/-- C6 witness: at the concrete masks S = 0, R = 7, stateless_server is
lossy, and even with an empty caller mask the supported features contain the
whole baseline. -/
theorem policy_constructors_spec_witness :
    (Policy.stateless_server 0 7).lossy = true
    ∧ (Policy.stateless_server 0 7).features_supported &&&
        CEPH_FEATURES_SUPPORTED_DEFAULT = CEPH_FEATURES_SUPPORTED_DEFAULT :=
  ⟨(policy_constructors_spec 0 7).2.2.1,
    (policy_constructors_spec 0 7).2.2.2.2.2.2.2.2.2.2.2.2.2.2.2.2.2.1⟩

/-- A concrete transport whose state counts the payloads it has sent. -/
def t0 : TransportImpl Nat :=
  { send_message := fun s m dest => (s + m.payload + dest.addr.nonce, 0) }

/-- C10 witness: on the concrete transport, lazy_send_message and
send_message agree at a concrete state, message and destination. -/
theorem lazy_send_message_forwards_witness :
    t0.lazy_send_message 1 msg0 inst0 = t0.send_message 1 msg0 inst0 :=
  lazy_send_message_forwards Nat t0 1 msg0 inst0
